import Mathlib

/-!
Shallow embedding of the open_tick crate (src/lib.rs, src/mountain_project.rs,
src/thecrag.rs): canonical ticks, the discipline taxonomy mappers for both
sources, the two tick conversions, and the Mountain Project identity resolver,
together with theorems settling the frozen claims about them.
-/

namespace OpenTickSpec

/-- chrono::NaiveDate, a calendar date with no time-of-day component. -/
structure NaiveDate where
  year : Int
  month : Nat
  day : Nat
deriving DecidableEq, Repr

/-- chrono::DateTime of Utc, a timestamp.  The code only ever observes it via
date_naive (truncation to the calendar date), so it is modelled as that
calendar date together with the remaining time of day in nanoseconds. -/
structure DateTime where
  dateNaive : NaiveDate
  timeOfDayNanos : Nat
deriving DecidableEq, Repr

/-- url::Url, modelled by the two observations the code makes of it:
domain() (None for URLs without a host) and path_segments() (None exactly for
cannot-be-a-base URLs; such URLs also have no host, so in the url crate
domain().is_some() implies path_segments().is_some()). -/
structure Url where
  domain : Option String
  pathSegments : Option (List String)
deriving DecidableEq, Repr

/-- Discipline from src/lib.rs: one boolean flag per canonical style tag. -/
structure Discipline where
  aid : Bool
  bouldering : Bool
  deep_water_solo : Bool
  ice : Bool
  sport : Bool
  top_rope : Bool
  trad : Bool
  unknown : Bool
deriving DecidableEq, Repr

/-- Discipline::default() from the derived Default impl: every flag false. -/
def Discipline.default : Discipline :=
  ⟨false, false, false, false, false, false, false, false⟩

/-- MountainProjectStyle from src/mountain_project.rs. -/
inductive MountainProjectStyle where
  | Attempt | Flash | Follow | Lead | Send | Solo | TR
deriving DecidableEq, Repr

/-- MountainProjectLeadStyle from src/mountain_project.rs. -/
inductive MountainProjectLeadStyle where
  | FellHung | Flash | Onsight | Pinkpoint | Redpoint
deriving DecidableEq, Repr

/-- MountainProjectRouteType from src/mountain_project.rs: one flag per
taxonomy token recognized in the free-text Route Type field. -/
structure MountainProjectRouteType where
  boulder : Bool
  sport : Bool
  top_rope : Bool
  trad : Bool
  unknown : Bool
deriving DecidableEq, Repr

/-- Whether pat is a leading block of hay (Rust str::starts_with on chars). -/
def listStartsWith : List Char → List Char → Bool
  | [], _ => true
  | _ :: _, [] => false
  | p :: ps, h :: hs => p == h && listStartsWith ps hs

/-- Whether pat occurs contiguously inside hay, checked at every start
position. -/
def listContainsSeq (pat : List Char) : List Char → Bool
  | [] => listStartsWith pat []
  | h :: hs => listStartsWith pat (h :: hs) || listContainsSeq pat hs

/-- Rust str::contains with a string pattern: substring containment. -/
def strContains (s pat : String) : Bool :=
  listContainsSeq pat.data s.data

/-- From&lt;&str&gt; for MountainProjectRouteType (src/mountain_project.rs
lines 133-143): each flag is set iff the input contains the corresponding
token as a substring. -/
def MountainProjectRouteType.fromStr (value : String) : MountainProjectRouteType where
  boulder := strContains value "Boulder"
  sport := strContains value "Sport"
  top_rope := strContains value "TR"
  trad := strContains value "Trad"
  unknown := strContains value "Unknown"

/-- Serialize for MountainProjectRouteType (src/mountain_project.rs lines
171-198): push one token per set flag, in declaration order, then join with
", ".  Note the source pushes the lowercase token "trad" for the trad flag. -/
def MountainProjectRouteType.serialize (r : MountainProjectRouteType) : String :=
  let s : List String :=
    (if r.boulder then ["Boulder"] else []) ++
    (if r.sport then ["Sport"] else []) ++
    (if r.top_rope then ["TR"] else []) ++
    (if r.trad then ["trad"] else []) ++
    (if r.unknown then ["Unknown"] else [])
  String.intercalate ", " s

/-- MountainProjectRouteId from src/mountain_project.rs. -/
structure MountainProjectRouteId where
  val : Nat
deriving DecidableEq, Repr

/-- MountainProjectIdConversionError from src/mountain_project.rs. -/
inductive MountainProjectIdConversionError where
  | WrongDomain
  | BadPath
deriving DecidableEq, Repr

/-- Rust str::parse::&lt;usize&gt;(): an optional leading plus sign followed by
one or more ASCII digits, rejecting values that overflow a 64-bit usize. -/
def parseUsize (s : String) : Option Nat :=
  let cs := match s.data with
    | '+' :: rest => rest
    | cs => cs
  if cs = [] then none
  else if cs.all Char.isDigit then
    let v := cs.foldl (fun a c => a * 10 + (c.toNat - '0'.toNat)) 0
    if v < 2 ^ 64 then some v else none
  else none

/-- TryFrom&lt;Url&gt; for MountainProjectRouteId (src/mountain_project.rs lines
217-248).  The source matches the first path segment against the literals
"route" and "v" with a catch-all, but every arm other than "route" yields
BadPath; an absent second segment or a failed usize parse also yield BadPath.
path_segments() being None hits the ok_or(WrongDomain) in the source. -/
def MountainProjectRouteId.tryFromUrl (value : Url) :
    Except MountainProjectIdConversionError MountainProjectRouteId :=
  if value.domain ≠ some "www.mountainproject.com" then
    .error .WrongDomain
  else
    match value.pathSegments with
    | none => .error .WrongDomain
    | some segs =>
      match segs.head? with
      | none => .error .BadPath
      | some s0 =>
        if s0 = "route" then
          match segs.get? 1 with
          | none => .error .BadPath
          | some s1 =>
            match parseUsize s1 with
            | none => .error .BadPath
            | some id => .ok ⟨id⟩
        else .error .BadPath

/-- MountainProjectTick from src/mountain_project.rs: the free-text source
record, one field per CSV column. -/
structure MountainProjectTick where
  date : Option NaiveDate
  route : String
  rating : String
  notes : String
  url : Option Url
  pitches : Nat
  location : String
  avg_stars : Float
  your_stars : Int
  style : MountainProjectStyle
  lead_style : Option MountainProjectLeadStyle
  route_type : MountainProjectRouteType
  your_rating : String
  length : Nat
  rating_code : Nat

/-- TheCragGearStyle from src/thecrag.rs.  The declaration in thecrag.rs
spells the "Top rope" variant TopeRope; the From impl in lib.rs writes its
match arm for that same variant as TheCragGearStyle::TopRope.  The serde-empty
variant is None in the source. -/
inductive TheCragGearStyle where
  | Aid
  | Alpine
  | Boulder
  | FreeSolo
  | Second
  | Sport
  | TopeRope
  | Trad
  | Unknown
  | None
deriving DecidableEq, Repr

/-- TheCragAscentType from src/thecrag.rs. -/
inductive TheCragAscentType where
  | Aid | AidSolo | Attempt | Clean | Dab | Flash | Ghost | Greenpoint
  | GreenPointOnsight | GroundUpRedPoint | HangDog | LeadSolo | Mark | Onsight
  | PinkPoint | Send | RedPoint | Repeat | Retreat | RopedSolo | SecondClean
  | SecondWithRest | Tick | TopRope | TopRopeClean | TopRopeFlash
  | TopRopeOnsight | TopRopeWithRest | Working
deriving DecidableEq, Repr

/-- TheCragRouteId from src/thecrag.rs. -/
structure TheCragRouteId where
  val : Nat
deriving DecidableEq, Repr

/-- TheCragAscentId from src/thecrag.rs. -/
structure TheCragAscentId where
  val : Nat
deriving DecidableEq, Repr

/-- TheCragTick from src/thecrag.rs: the closed-enum source record, one field
per CSV column.  The Rust field named with is with_ here (Lean keyword). -/
structure TheCragTick where
  route_name : String
  ascent_label : String
  ascent_id : TheCragAscentId
  ascent_link : Url
  ascent_type : TheCragAscentType
  route_grade : String
  ascent_grade : String
  route_gear_style : TheCragGearStyle
  ascent_gear_style : TheCragGearStyle
  route_height : String
  ascent_height : String
  number_ascents : Nat
  route_stars : String
  route_id : TheCragRouteId
  route_link : Url
  country : String
  country_link : Url
  crag_name : String
  crag_link : Url
  crag_path : String
  with_ : String
  comment : String
  quality : String
  ascent_date : Option DateTime
  log_date : DateTime
  shot : Option Nat

/-- From&lt;MountainProjectRouteType&gt; for Discipline (src/lib.rs lines
52-65): copy the five flags, with aid, deep_water_solo and ice hard-coded
false. -/
def Discipline.fromMountainProjectRouteType (value : MountainProjectRouteType) : Discipline where
  aid := false
  bouldering := value.boulder
  deep_water_solo := false
  ice := false
  sport := value.sport
  top_rope := value.top_rope
  trad := value.trad
  unknown := value.unknown

/-- From&lt;TheCragGearStyle&gt; for Discipline (src/lib.rs lines 67-99):
exhaustive match with one arm per core value setting that flag over
Default::default(), and a catch-all arm producing Default::default() (all
flags false).  The TopeRope case is the arm the source writes as
TheCragGearStyle::TopRope. -/
def Discipline.fromTheCragGearStyle (value : TheCragGearStyle) : Discipline :=
  match value with
  | .Aid => { Discipline.default with aid := true }
  | .Boulder => { Discipline.default with bouldering := true }
  | .Sport => { Discipline.default with sport := true }
  | .TopeRope => { Discipline.default with top_rope := true }
  | .Trad => { Discipline.default with trad := true }
  | .Unknown => { Discipline.default with unknown := true }
  | _ => Discipline.default

/-- OpenTick from src/lib.rs: the canonical record. -/
structure OpenTick where
  date : Option NaiveDate
  route_name : Option String
  route_location : Option String
  route_discipline : Option Discipline
  ascent_discipline : Option Discipline
  route_grade : Option String
  ascent_grade : Option String
  comment : Option String
deriving DecidableEq, Repr

/-- ConversionError from src/lib.rs lines 155-158: an enum with no
variants. -/
inductive ConversionError where

/-- TryFrom&lt;MountainProjectTick&gt; for OpenTick (src/lib.rs lines 101-127).
The source wraps value.route_type in MountainProjectRouteType::from, the
identity on an already-typed value. -/
def OpenTick.tryFromMountainProjectTick (value : MountainProjectTick) :
    Except ConversionError OpenTick :=
  .ok
    { date := value.date
      route_name := some value.route
      route_location := some value.location
      route_discipline := some (Discipline.fromMountainProjectRouteType value.route_type)
      ascent_discipline := none
      route_grade := some value.rating
      ascent_grade := some value.your_rating
      comment := some value.notes }

/-- TryFrom&lt;TheCragTick&gt; for OpenTick (src/lib.rs lines 129-153). -/
def OpenTick.tryFromTheCragTick (value : TheCragTick) :
    Except ConversionError OpenTick :=
  .ok
    { date := value.ascent_date.map DateTime.dateNaive
      route_name := some value.route_name
      route_location := some value.crag_path
      route_discipline := some (Discipline.fromTheCragGearStyle value.route_gear_style)
      ascent_discipline := some (Discipline.fromTheCragGearStyle value.ascent_gear_style)
      route_grade := some value.route_grade
      ascent_grade := some value.ascent_grade
      comment := some value.comment }

/-! Theorems settling the claims. -/

/-- Claim C1, counterexample: the claim says the extension value Alpine maps
to the Discipline with only the unknown flag set true, but the catch-all arm
of the source maps it to Default::default(), all flags false. -/
theorem c1_alpine_not_unknown_counterexample :
    Discipline.fromTheCragGearStyle TheCragGearStyle.Alpine ≠
      { Discipline.default with unknown := true } := by decide

/-- Claim C1, amended: each core theCrag gear style (Aid, Boulder, Sport, the
Top rope variant, Trad, Unknown) maps to the Discipline with exactly its
corresponding flag set true, and every value outside the core taxonomy
(Alpine, FreeSolo, Second, and the empty value) maps to the all-false default
Discipline; the mapping is total, never a failure. -/
theorem c1_thecrag_mapping_table :
    Discipline.fromTheCragGearStyle .Aid = { Discipline.default with aid := true }
    ∧ Discipline.fromTheCragGearStyle .Boulder = { Discipline.default with bouldering := true }
    ∧ Discipline.fromTheCragGearStyle .Sport = { Discipline.default with sport := true }
    ∧ Discipline.fromTheCragGearStyle .TopeRope = { Discipline.default with top_rope := true }
    ∧ Discipline.fromTheCragGearStyle .Trad = { Discipline.default with trad := true }
    ∧ Discipline.fromTheCragGearStyle .Unknown = { Discipline.default with unknown := true }
    ∧ Discipline.fromTheCragGearStyle .Alpine = Discipline.default
    ∧ Discipline.fromTheCragGearStyle .FreeSolo = Discipline.default
    ∧ Discipline.fromTheCragGearStyle .Second = Discipline.default
    ∧ Discipline.fromTheCragGearStyle .None = Discipline.default := by decide

/-- Claim C2: the free-text (Mountain Project) taxonomy mapping is total and
decided by substring containment: each Discipline flag equals containment of
its token, the three remaining flags are always false, "Trad, TR" yields
exactly trad and top_rope, and "Unknown" yields only unknown. -/
theorem c2_freetext_taxonomy_by_containment :
    (∀ s : String,
      (Discipline.fromMountainProjectRouteType (MountainProjectRouteType.fromStr s)).bouldering
          = strContains s "Boulder"
      ∧ (Discipline.fromMountainProjectRouteType (MountainProjectRouteType.fromStr s)).sport
          = strContains s "Sport"
      ∧ (Discipline.fromMountainProjectRouteType (MountainProjectRouteType.fromStr s)).top_rope
          = strContains s "TR"
      ∧ (Discipline.fromMountainProjectRouteType (MountainProjectRouteType.fromStr s)).trad
          = strContains s "Trad"
      ∧ (Discipline.fromMountainProjectRouteType (MountainProjectRouteType.fromStr s)).unknown
          = strContains s "Unknown"
      ∧ (Discipline.fromMountainProjectRouteType (MountainProjectRouteType.fromStr s)).aid = false
      ∧ (Discipline.fromMountainProjectRouteType
          (MountainProjectRouteType.fromStr s)).deep_water_solo = false
      ∧ (Discipline.fromMountainProjectRouteType (MountainProjectRouteType.fromStr s)).ice = false)
    ∧ Discipline.fromMountainProjectRouteType (MountainProjectRouteType.fromStr "Trad, TR")
        = { Discipline.default with trad := true, top_rope := true }
    ∧ Discipline.fromMountainProjectRouteType (MountainProjectRouteType.fromStr "Unknown")
        = { Discipline.default with unknown := true } :=
  ⟨fun _ => ⟨rfl, rfl, rfl, rfl, rfl, rfl, rfl, rfl⟩, by decide, by decide⟩

/-- Claim C3: both conversions are total: every Mountain Project tick and
every theCrag tick converts to Ok, and the error type ConversionError is
uninhabited, so the error branch is unreachable. -/
theorem c3_conversions_total :
    (∀ t : MountainProjectTick, ∃ o, OpenTick.tryFromMountainProjectTick t = .ok o)
    ∧ (∀ t : TheCragTick, ∃ o, OpenTick.tryFromTheCragTick t = .ok o)
    ∧ IsEmpty ConversionError :=
  ⟨fun _ => ⟨_, rfl⟩, fun _ => ⟨_, rfl⟩, ⟨fun e => nomatch e⟩⟩

/-- Claim C4: for every theCrag tick the canonical date is the ascent
timestamp truncated to its calendar date when present and absent otherwise
(Option.map of the truncation), and replacing the log-entry timestamp with
any other value leaves the canonical date unchanged. -/
theorem c4_thecrag_date_from_ascent_timestamp (t : TheCragTick) :
    ∃ o, OpenTick.tryFromTheCragTick t = .ok o
      ∧ o.date = t.ascent_date.map DateTime.dateNaive
      ∧ ∀ ld : DateTime, ∃ o2,
          OpenTick.tryFromTheCragTick { t with log_date := ld } = .ok o2
          ∧ o2.date = o.date :=
  ⟨_, rfl, rfl, fun _ => ⟨_, rfl, rfl⟩⟩

/-- Claim C5: every Mountain Project tick converts to a canonical tick whose
ascent_discipline is absent. -/
theorem c5_mp_ascent_discipline_absent (t : MountainProjectTick) :
    ∃ o, OpenTick.tryFromMountainProjectTick t = .ok o ∧ o.ascent_discipline = none :=
  ⟨_, rfl, rfl⟩

/-- Claim C6: Mountain Project conversion never fails and copies Route,
Location, Rating, Your Rating and Notes verbatim into route_name,
route_location, route_grade, ascent_grade and comment, each wrapped as
present, with the date passed through unchanged. -/
theorem c6_mp_verbatim_fields (t : MountainProjectTick) :
    ∃ o, OpenTick.tryFromMountainProjectTick t = .ok o
      ∧ o.route_name = some t.route
      ∧ o.route_location = some t.location
      ∧ o.route_grade = some t.rating
      ∧ o.ascent_grade = some t.your_rating
      ∧ o.comment = some t.notes
      ∧ o.date = t.date :=
  ⟨_, rfl, rfl, rfl, rfl, rfl, rfl, rfl⟩

/-- Claim C8: theCrag conversion takes route_location from the full hierarchy
path field crag_path, always present in the result, and changing the bare
crag_name field never changes it. -/
theorem c8_thecrag_location_is_crag_path (t : TheCragTick) :
    ∃ o, OpenTick.tryFromTheCragTick t = .ok o
      ∧ o.route_location = some t.crag_path
      ∧ ∀ name, ∃ o2,
          OpenTick.tryFromTheCragTick { t with crag_name := name } = .ok o2
          ∧ o2.route_location = o.route_location :=
  ⟨_, rfl, rfl, fun _ => ⟨_, rfl, rfl⟩⟩

/-- Claim C9: serializing the route-type value with only the trad flag set
emits the lowercase token "trad", and deserializing that string yields the
all-false value, not the original: the serialize/deserialize round trip
loses the trad flag. -/
theorem c9_roundtrip_loses_trad :
    MountainProjectRouteType.fromStr
        (MountainProjectRouteType.serialize ⟨false, false, false, true, false⟩)
      = ⟨false, false, false, false, false⟩
    ∧ MountainProjectRouteType.fromStr
        (MountainProjectRouteType.serialize ⟨false, false, false, true, false⟩)
      ≠ ⟨false, false, false, true, false⟩ := by decide

/-- Claim C10: the Discipline obtained from any free-text route-type string
always has aid, deep_water_solo and ice false, and consequently so does the
route_discipline of every converted Mountain Project tick. -/
theorem c10_freetext_never_aid_dws_ice :
    (∀ s : String,
      (Discipline.fromMountainProjectRouteType (MountainProjectRouteType.fromStr s)).aid = false
      ∧ (Discipline.fromMountainProjectRouteType
          (MountainProjectRouteType.fromStr s)).deep_water_solo = false
      ∧ (Discipline.fromMountainProjectRouteType (MountainProjectRouteType.fromStr s)).ice = false)
    ∧ ∀ t : MountainProjectTick, ∃ o, OpenTick.tryFromMountainProjectTick t = .ok o
        ∧ ∃ d, o.route_discipline = some d
          ∧ d.aid = false ∧ d.deep_water_solo = false ∧ d.ice = false :=
  ⟨fun _ => ⟨rfl, rfl, rfl⟩, fun _ => ⟨_, rfl, _, rfl, rfl, rfl, rfl⟩⟩

/-- Claim C7: the identity resolver is a trichotomy: it returns WrongDomain
exactly when the domain is not www.mountainproject.com; otherwise (under the
url crate invariant that a URL with a host is not cannot-be-a-base and so has
path segments) it returns BadPath exactly when the first path segment is not
the literal "route" or the second segment is absent or does not parse as a
usize, and Ok n exactly when the first segment is "route" and the second
parses to n.  There is no other outcome. -/
theorem c7_identity_resolver_trichotomy (u : Url)
    (hwf : u.domain = some "www.mountainproject.com" → ∃ segs, u.pathSegments = some segs) :
    (MountainProjectRouteId.tryFromUrl u = .error .WrongDomain ↔
      u.domain ≠ some "www.mountainproject.com")
    ∧ ∀ segs, u.pathSegments = some segs →
        u.domain = some "www.mountainproject.com" →
        ((MountainProjectRouteId.tryFromUrl u = .error .BadPath ↔
            (segs.head? ≠ some "route" ∨ (segs.get? 1).bind parseUsize = none))
          ∧ ∀ n : Nat, (MountainProjectRouteId.tryFromUrl u = .ok ⟨n⟩ ↔
              (segs.head? = some "route" ∧ (segs.get? 1).bind parseUsize = some n))) := by
  obtain ⟨dom, ps⟩ := u
  by_cases hd : dom = some "www.mountainproject.com"
  case pos =>
    obtain ⟨segs0, hps⟩ := hwf hd
    have hps2 : ps = some segs0 := hps
    subst hps2
    subst hd
    constructor
    · refine iff_of_false ?_ (by simp)
      rcases segs0 with _ | ⟨s0, rest⟩
      · simp [MountainProjectRouteId.tryFromUrl]
      · by_cases hr : s0 = "route"
        · subst hr
          rcases rest with _ | ⟨s1, rest2⟩
          · simp [MountainProjectRouteId.tryFromUrl]
          · cases hp : parseUsize s1 with
            | none => simp [MountainProjectRouteId.tryFromUrl, hp]
            | some id => simp [MountainProjectRouteId.tryFromUrl, hp]
        · simp [MountainProjectRouteId.tryFromUrl, hr]
    · rintro segs hseq -
      obtain rfl : segs0 = segs := Option.some.inj hseq
      rcases segs0 with _ | ⟨s0, rest⟩
      · constructor
        · simp [MountainProjectRouteId.tryFromUrl]
        · simp [MountainProjectRouteId.tryFromUrl]
      · by_cases hr : s0 = "route"
        · subst hr
          rcases rest with _ | ⟨s1, rest2⟩
          · constructor
            · simp [MountainProjectRouteId.tryFromUrl]
            · simp [MountainProjectRouteId.tryFromUrl]
          · cases hp : parseUsize s1 with
            | none =>
              constructor
              · simp [MountainProjectRouteId.tryFromUrl, hp]
              · simp [MountainProjectRouteId.tryFromUrl, hp]
            | some id =>
              constructor
              · simp [MountainProjectRouteId.tryFromUrl, hp]
              · simp [MountainProjectRouteId.tryFromUrl, hp]
        · constructor
          · simp [MountainProjectRouteId.tryFromUrl, hr]
          · simp [MountainProjectRouteId.tryFromUrl, hr]
  case neg =>
    constructor
    · exact iff_of_true (by simp [MountainProjectRouteId.tryFromUrl, hd]) hd
    · rintro segs hsegs hd2
      exact absurd hd2 hd

/-- Claim C7 witness: applying the trichotomy at the documented example URL
https&#58;//www.mountainproject.com/route/12321/route-name yields Ok 12321. -/
theorem c7_identity_resolver_trichotomy_witness :
    MountainProjectRouteId.tryFromUrl
        ⟨some "www.mountainproject.com", some ["route", "12321", "route-name"]⟩
      = .ok ⟨12321⟩ := by
  have h := c7_identity_resolver_trichotomy
      ⟨some "www.mountainproject.com", some ["route", "12321", "route-name"]⟩
      (fun _ => ⟨["route", "12321", "route-name"], rfl⟩)
  exact ((h.2 ["route", "12321", "route-name"] rfl rfl).2 12321).mpr ⟨rfl, by decide⟩

end OpenTickSpec
